import Mathlib

/-!
Verification of the artifact generator in src/app.py (Flask application).

The program renders deployment artifacts from an application descriptor
(app_name, port, node_port, envs).  We embed it shallowly:

* file contents are Lean String values built exactly as the Python
  f-strings build them (every byte of literal text is transcribed;
  Python braces in the output are written with \x7b and \x7d escapes);
* the filesystem is an association list from paths (lists of segments,
  mirroring os.path.join) to contents, and generate_files becomes an
  explicit list of filesystem operations executed in source order;
* the module-level functions and their call edges are transcribed so that
  reachability from the two Flask routes can be settled.
-/

/-- An entry of the envs list received by the /generate route: a dict with
keys name and secret_id, as read at src/app.py lines 23, 26, 172, 183. -/
structure EnvVar where
  name : String
  secret_id : String
deriving DecidableEq, Repr

/-- The descriptor extracted from the request body at src/app.py
lines 255-258: app_name, port, node_port, envs. -/
structure Descriptor where
  app_name : String
  port : Nat
  node_port : Nat
  envs : List EnvVar
deriving DecidableEq, Repr

/-- A filesystem path, as the list of segments that os.path.join joins. -/
abbrev FsPath := List String

/-- Filesystem state: the written files, as an ordered path-content list. -/
abbrev Fs := List (FsPath × String)

/-! ## Emission-site projections

Each definition below transcribes one interpolation site of src/app.py;
the line number of the site is given with each definition.  The full
artifact texts further down are built from these projections, so each
projection is literally the string placed at that position of the file. -/

/-- Deployment manifest metadata.name, line 40: the raw app_name. -/
def deployment_metadata_name (app_name : String) : String := app_name

/-- Deployment manifest metadata.labels.app, line 43. -/
def deployment_label_app (app_name : String) : String := app_name

/-- Deployment manifest spec.selector.matchLabels.app, line 48. -/
def deployment_selector_app (app_name : String) : String := app_name

/-- Deployment manifest template labels app, line 52. -/
def deployment_template_label_app (app_name : String) : String := app_name

/-- Deployment manifest container name, line 55. -/
def deployment_container_name (app_name : String) : String := app_name

/-- Deployment manifest envFrom secretRef name, line 63. -/
def deployment_secret_ref (app_name : String) : String := app_name ++ "-secret"

/-- Liveness probe httpGet path, line 73. -/
def liveness_probe_path (app_name : String) : String := "/" ++ app_name

/-- Readiness probe httpGet path, line 81. -/
def readiness_probe_path (app_name : String) : String := "/" ++ app_name

/-- Probe timing fields of a k8s probe block. -/
structure ProbeTimings where
  initialDelaySeconds : Nat
  periodSeconds : Nat
  timeoutSeconds : Nat
  failureThreshold : Nat
deriving DecidableEq, Repr

/-- Liveness probe timings, lines 75-78: literal constants, the arguments
of generate_files are not consulted. -/
def liveness_probe_timings (_app_name : String) (_port : Nat) : ProbeTimings :=
  ⟨30, 10, 5, 3⟩

/-- Readiness probe timings, lines 83-86: literal constants, the arguments
of generate_files are not consulted. -/
def readiness_probe_timings (_app_name : String) (_port : Nat) : ProbeTimings :=
  ⟨5, 5, 3, 3⟩

/-- Service manifest metadata.name, line 104. -/
def service_metadata_name (app_name : String) : String := app_name ++ "-service"

/-- Service manifest spec.selector.app, line 109. -/
def service_selector_app (app_name : String) : String := app_name

/-- HPA manifest metadata.name, line 122. -/
def hpa_metadata_name (app_name : String) : String := app_name ++ "-hpa"

/-- HPA manifest spec.scaleTargetRef.name, line 128. -/
def hpa_scale_target_name (app_name : String) : String := app_name

/-- Secret manifest metadata.name, line 146. -/
def secret_metadata_name (app_name : String) : String := app_name ++ "-secret"

/-- Jenkinsfile environment DEPLOYMENT_NAME, line 166. -/
def jenkins_deployment_name (app_name : String) : String := app_name

/-- Jenkinsfile environment SERVICE_NAME, line 167. -/
def jenkins_service_name (app_name : String) : String := app_name ++ "-service"

/-- Jenkinsfile environment HPA_NAME, line 168. -/
def jenkins_hpa_name (app_name : String) : String := app_name ++ "-hpa"

/-- Jenkinsfile environment SECRET_NAME, line 169. -/
def jenkins_secret_name (app_name : String) : String := app_name ++ "-secret"

/-- Jenkinsfile rollout target, line 237: deployment/app_name. -/
def jenkins_rollout_target (app_name : String) : String := app_name

/-- Jenkinsfile pod-listing label selector value, line 238: app=app_name. -/
def jenkins_pods_label (app_name : String) : String := app_name

/-! ## Build-argument and credential-binding sets -/

/-- The ARG declarations of the Dockerfile, lines 23-24: one ARG per entry
of envs, in order, then ARG PORT. -/
def dockerfile_build_args (envs : List EnvVar) : List String :=
  envs.map (fun e => e.name) ++ ["PORT"]

/-- The credential bindings the Jenkinsfile declares, lines 182-183 (and
identically lines 210-211): one string(credentialsId: secret_id,
variable: name) per entry of envs. This returns the bound variable names. -/
def jenkins_credential_bindings (envs : List EnvVar) : List String :=
  envs.map (fun e => e.name)

/-- The variables the Jenkinsfile passes as --build-arg to docker build,
lines 190-193: one --build-arg name per entry of envs, in order, then
--build-arg PORT. -/
def jenkins_build_arg_names (envs : List EnvVar) : List String :=
  envs.map (fun e => e.name) ++ ["PORT"]

/-- The manifest paths the Jenkinsfile deploy stage substitutes and
applies, lines 232-235: k8s/app_name-res.yaml for res in
deployment, service, hpa (K8S_DIR is the literal k8s, line 165). -/
def jenkins_deploy_manifest_paths (app_name : String) : List FsPath :=
  ["deployment", "service", "hpa"].map
    (fun res => ["k8s", app_name ++ "-" ++ res ++ ".yaml"])

/-- The paths generate_files writes, relative to output_dir: lines 14, 36,
100, 118. -/
def bundle_relative_paths (app_name : String) : List FsPath :=
  [["Dockerfile"],
   ["k8s", app_name ++ ".yaml"],
   ["k8s", app_name ++ "-service.yaml"],
   ["k8s", app_name ++ "-hpa.yaml"]]

/-! ## Artifact texts, transcribed byte for byte from the f-strings -/

/-- Dockerfile text, lines 15-33. -/
def dockerfile_text (envs : List EnvVar) : String :=
  "FROM node:20-slim\n\nWORKDIR /app\n\nCOPY package*.json ./\nRUN npm ci --ignore-scripts && npm cache clean --force\nCOPY . .\n\n"
  ++ String.join (envs.map (fun e => "ARG " ++ e.name ++ "\n"))
  ++ "\nARG PORT\n\nENV "
  ++ String.intercalate " \\\n    " (envs.map (fun e => e.name ++ "=$\x7b" ++ e.name ++ "\x7d"))
  ++ " \\\n    PORT=$\x7bPORT\x7d\n\nEXPOSE $\x7bPORT\x7d\n\nUSER node\nCMD [\"node\", \"dist/main\", \"--port\", \"$\x7bPORT\x7d\"]\n"

/-- Deployment manifest text, lines 37-97. -/
def deployment_text (app_name : String) (port : Nat) : String :=
  "apiVersion: apps/v1\nkind: Deployment\nmetadata:\n  name: "
  ++ deployment_metadata_name app_name
  ++ "\n  namespace: pnud-agvm\n  labels:\n    app: "
  ++ deployment_label_app app_name
  ++ "\nspec:\n  replicas: 1\n  selector:\n    matchLabels:\n      app: "
  ++ deployment_selector_app app_name
  ++ "\n  template:\n    metadata:\n      labels:\n        app: "
  ++ deployment_template_label_app app_name
  ++ "\n    spec:\n      containers:\n        - name: "
  ++ deployment_container_name app_name
  ++ "\n          image: $\x7bFULL_IMAGE_NAME\x7d\n          imagePullPolicy: Always\n          ports:\n            - containerPort: "
  ++ toString port
  ++ "\n              name: http\n          envFrom:\n            - secretRef:\n                name: "
  ++ deployment_secret_ref app_name
  ++ "\n          resources:\n            requests:\n              cpu: \"200m\"\n              memory: \"256Mi\"\n            limits:\n              cpu: \"1000m\"\n              memory: \"1Gi\"\n          livenessProbe:\n            httpGet:\n              path: "
  ++ liveness_probe_path app_name
  ++ "\n              port: http\n            initialDelaySeconds: "
  ++ toString (liveness_probe_timings app_name port).initialDelaySeconds
  ++ "\n            periodSeconds: "
  ++ toString (liveness_probe_timings app_name port).periodSeconds
  ++ "\n            timeoutSeconds: "
  ++ toString (liveness_probe_timings app_name port).timeoutSeconds
  ++ "\n            failureThreshold: "
  ++ toString (liveness_probe_timings app_name port).failureThreshold
  ++ "\n          readinessProbe:\n            httpGet:\n              path: "
  ++ readiness_probe_path app_name
  ++ "\n              port: http\n            initialDelaySeconds: "
  ++ toString (readiness_probe_timings app_name port).initialDelaySeconds
  ++ "\n            periodSeconds: "
  ++ toString (readiness_probe_timings app_name port).periodSeconds
  ++ "\n            timeoutSeconds: "
  ++ toString (readiness_probe_timings app_name port).timeoutSeconds
  ++ "\n            failureThreshold: "
  ++ toString (readiness_probe_timings app_name port).failureThreshold
  ++ "\n          securityContext:\n            runAsNonRoot: true\n            runAsUser: 1000\n            allowPrivilegeEscalation: false\n            readOnlyRootFilesystem: true\n            capabilities:\n              drop:\n                - ALL\n      imagePullSecrets:\n        - name: harbor-registry-secret\n"

/-- Service manifest text, lines 101-115. -/
def service_text (app_name : String) (port node_port : Nat) : String :=
  "apiVersion: v1\nkind: Service\nmetadata:\n  name: "
  ++ service_metadata_name app_name
  ++ "\n  namespace: pnud-agvm\nspec:\n  type: NodePort\n  selector:\n    app: "
  ++ service_selector_app app_name
  ++ "\n  ports:\n    - protocol: TCP\n      port: "
  ++ toString port
  ++ "\n      targetPort: "
  ++ toString port
  ++ "\n      nodePort: "
  ++ toString node_port
  ++ "\n"

/-- HPA manifest text, lines 119-138. -/
def hpa_text (app_name : String) : String :=
  "apiVersion: autoscaling/v2\nkind: HorizontalPodAutoscaler\nmetadata:\n  name: "
  ++ hpa_metadata_name app_name
  ++ "\n  namespace: pnud-agvm\nspec:\n  scaleTargetRef:\n    apiVersion: apps/v1\n    kind: Deployment\n    name: "
  ++ hpa_scale_target_name app_name
  ++ "\n  minReplicas: 1\n  maxReplicas: 5\n  metrics:\n  - type: Resource\n    resource:\n      name: cpu\n      target:\n        type: Utilization\n        averageUtilization: 50\n"

/-- The stringData entries of the secret manifest, lines 151-152: one line
per element of var_names, in order. -/
def secret_string_data_entries (var_names : List String) : List String :=
  var_names.map (fun v => "  " ++ v ++ ": \"$\x7b" ++ v ++ "\x7d\"\n")

/-- Secret manifest text, lines 143-152. -/
def secret_yaml_text (app_name : String) (var_names : List String) : String :=
  "apiVersion: v1\nkind: Secret\nmetadata:\n  name: "
  ++ secret_metadata_name app_name
  ++ "\n  namespace: $\x7bNAMESPACE\x7d\ntype: Opaque\nstringData:\n"
  ++ String.join (secret_string_data_entries var_names)

/-! ## Filesystem model

A shallow model of the filesystem side effects of src/app.py: the state
is the list of written files; shutil.rmtree removes every file at or
under a directory; os.makedirs creates directories only, so it does not
change the set of files; open(path, "w") followed by f.write replaces
whatever was at that path and appends the new file. -/

/-- One filesystem side effect of generate_files. -/
inductive FsOp where
  | rmtreeIfExists (dir : FsPath)
  | mkdirs (dir : FsPath)
  | write (path : FsPath) (content : String)
deriving DecidableEq, Repr

/-- Execute one operation on the filesystem state. -/
def applyOp (fs : Fs) : FsOp → Fs
  | FsOp.rmtreeIfExists dir => fs.filter (fun e => !(dir.isPrefixOf e.1))
  | FsOp.mkdirs _ => fs
  | FsOp.write p c => fs.filter (fun e => !(e.1 == p)) ++ [(p, c)]

/-- Execute a sequence of operations in order. -/
def runOps (ops : List FsOp) (fs : Fs) : Fs := ops.foldl applyOp fs

/-- The four files generate_files writes, with their destinations, in
source order: the Dockerfile (line 14), the deployment manifest
(line 36), the service manifest (line 100) and the HPA manifest
(line 118); the three manifests go under the k8s subdirectory (line 8). -/
def bundle_writes (app_name : String) (port node_port : Nat)
    (envs : List EnvVar) (output_dir : FsPath) : List (FsPath × String) :=
  [(output_dir ++ ["Dockerfile"], dockerfile_text envs),
   (output_dir ++ ["k8s", app_name ++ ".yaml"], deployment_text app_name port),
   (output_dir ++ ["k8s", app_name ++ "-service.yaml"], service_text app_name port node_port),
   (output_dir ++ ["k8s", app_name ++ "-hpa.yaml"], hpa_text app_name)]

/-- The filesystem operations of generate_files (lines 7-138), in source
order: delete the destination tree if it exists (lines 9-10), create the
k8s directory (line 11), then write the four artifacts one after the
other (lines 14, 36, 100, 118). -/
def generate_files_ops (app_name : String) (port node_port : Nat)
    (envs : List EnvVar) (output_dir : FsPath) : List FsOp :=
  FsOp.rmtreeIfExists output_dir
    :: FsOp.mkdirs (output_dir ++ ["k8s"])
    :: (bundle_writes app_name port node_port envs output_dir).map
        (fun w => FsOp.write w.1 w.2)

/-- Run generate_files to completion on a filesystem state. -/
def generate_files (app_name : String) (port node_port : Nat)
    (envs : List EnvVar) (output_dir : FsPath) (fs : Fs) : Fs :=
  runOps (generate_files_ops app_name port node_port envs output_dir) fs

/-- The /generate route handler, lines 252-264: it extracts the fields,
sets output_dir to os.path.join("generated", app_name), calls
generate_files, and answers success True with the French message naming
output_dir.  generate_files has no failure mode in this model (its only
failures in Python are OS-level I/O errors), so the except branch of
lines 263-264 is never taken and the handler always returns success. -/
def generate_route (d : Descriptor) (fs : Fs) : Fs × Bool × String :=
  let output_dir : FsPath := ["generated", d.app_name]
  (generate_files d.app_name d.port d.node_port d.envs output_dir fs,
   true,
   "Fichiers générés dans generated/" ++ d.app_name)

/-! ## The stranded writer write_secret_yaml -/

/-- A Python runtime error raised by the embedded code. -/
inductive PyError where
  | nameError (unbound : String)
deriving DecidableEq, Repr

/-- Shallow embedding of write_secret_yaml, src/app.py lines 141-246.
Its declared parameters are app_name, var_names, output_path.
Lines 142-152 open output_path and write the secret manifest; the with
block then closes the file, so the secret file is durably written.
Line 155 next evaluates os.path.join(output_dir, "Jenkinsfile"), but
output_dir is bound nowhere in scope: it is not a parameter of
write_secret_yaml, and the module level binds only os, shutil, Flask,
app, generate_files, write_secret_yaml, index and generate.  Python
therefore raises NameError for output_dir there, and the rest of the
body (which also references the unbound envs, port and node_port) never
runs; in particular the Jenkinsfile is never written.  The embedding
returns the filesystem after the secret write together with that error. -/
def write_secret_yaml (app_name : String) (var_names : List String)
    (output_path : FsPath) (fs : Fs) : Fs × Except PyError Unit :=
  (applyOp fs (FsOp.write output_path (secret_yaml_text app_name var_names)),
   Except.error (PyError.nameError "output_dir"))

/-! ## Module-level call graph

The module src/app.py defines four functions.  Their intra-module call
edges, read off the source: index (lines 248-250) calls only the Flask
helper render_template; generate (lines 252-264) calls generate_files at
line 261 and otherwise only Flask helpers and os.path.join;
generate_files (lines 7-138) and write_secret_yaml (lines 141-246) call
only library functions (os, shutil, open).  The Flask routes, the public
interface, are index and generate (decorators at lines 248 and 252). -/

/-- The four module-level functions of src/app.py. -/
inductive PyFun where
  | index
  | generate
  | generate_files
  | write_secret_yaml
deriving DecidableEq, Repr

/-- Intra-module call edges of src/app.py (see the section comment). -/
def direct_calls : PyFun → List PyFun
  | PyFun.generate => [PyFun.generate_files]
  | _ => []

/-- The route handlers registered with Flask, lines 248 and 252. -/
def route_handlers : List PyFun := [PyFun.index, PyFun.generate]

/-- One step of call-graph closure. -/
def reach_step (s : List PyFun) : List PyFun :=
  (s ++ s.flatMap direct_calls).dedup

/-- The functions reachable from the route handlers; three closure steps
are more than enough for a four-node graph, and the fixpoint is checked
in the theorem that uses this. -/
def reachable_functions : List PyFun :=
  reach_step (reach_step (reach_step route_handlers))

/-- The files written by a list of operations, in order. -/
def writesOf (ops : List FsOp) : Fs :=
  ops.filterMap (fun op => match op with
    | FsOp.write p c => some (p, c)
    | _ => none)

/-- The malformedness notions named by the specification for the
descriptor validator (src/app.py contains no validator and no
ValidationError): a name holding an uppercase letter or an underscore,
or a duplicated environment-variable name.  This predicate is used only
to state claims about malformed descriptors. -/
def malformed_descriptor (d : Descriptor) : Prop :=
  (∃ c ∈ d.app_name.toList, c.isUpper = true ∨ c = '_') ∨
    ¬ (d.envs.map (fun e => e.name)).Nodup

instance malformed_descriptor_decidable (d : Descriptor) :
    Decidable (malformed_descriptor d) := by
  unfold malformed_descriptor
  exact inferInstance

/-! ## Helper lemmas about the filesystem model -/

/-- A directory path is a prefix of any path extending it. -/
theorem isPrefixOf_append_self (l t : List String) :
    l.isPrefixOf (l ++ t) = true := by
  simp

/-- Appending different suffixes to the same path gives different paths. -/
theorem append_ne_append {l a b : List String} (h : a ≠ b) :
    l ++ a ≠ l ++ b :=
  fun hh => h (List.append_cancel_left hh)

/-- Appending suffixes of different lengths to the same string gives
different strings. -/
theorem str_append_ne {n s t : String} (h : s.length ≠ t.length) :
    n ++ s ≠ n ++ t := by
  intro hh
  have hl := congrArg String.length hh
  simp only [String.length_append] at hl
  omega

/-- The four write destinations of generate_files are pairwise distinct. -/
theorem bundle_writes_paths_nodup (n : String) (port node_port : Nat)
    (envs : List EnvVar) (out : FsPath) :
    ((bundle_writes n port node_port envs out).map Prod.fst).Nodup := by
  have h23 : n ++ ".yaml" ≠ n ++ "-service.yaml" := str_append_ne (by decide)
  have h24 : n ++ ".yaml" ≠ n ++ "-hpa.yaml" := str_append_ne (by decide)
  have h34 : n ++ "-service.yaml" ≠ n ++ "-hpa.yaml" := str_append_ne (by decide)
  simp [bundle_writes, List.append_right_inj, h23, h24, h34]

/-- Every write destination of generate_files lies under output_dir. -/
theorem bundle_writes_under (n : String) (port node_port : Nat)
    (envs : List EnvVar) (out : FsPath) :
    ∀ w ∈ bundle_writes n port node_port envs out,
      out.isPrefixOf w.1 = true := by
  intro w hw
  simp only [bundle_writes, List.mem_cons, List.not_mem_nil, or_false] at hw
  rcases hw with h | h | h | h <;> subst h <;> simp [isPrefixOf_append_self]

/-- Executing a sequence of writes with pairwise distinct destinations:
the written files end up appended in order, and an entry of the initial
state survives exactly when its path is not one of the destinations. -/
theorem runOps_writes (ws : List (FsPath × String)) (base : Fs)
    (hn : (ws.map Prod.fst).Nodup) :
    runOps (ws.map (fun w => FsOp.write w.1 w.2)) base
      = base.filter (fun e => !decide (e.1 ∈ ws.map Prod.fst)) ++ ws := by
  induction ws generalizing base with
  | nil => simp [runOps]
  | cons w ws ih =>
    rw [List.map_cons, List.nodup_cons] at hn
    have hstep : runOps ((w :: ws).map (fun w => FsOp.write w.1 w.2)) base
        = runOps (ws.map (fun w => FsOp.write w.1 w.2))
            (applyOp base (FsOp.write w.1 w.2)) := rfl
    rw [hstep, ih _ hn.2]
    simp only [applyOp, List.filter_append]
    have hD : (List.filter (fun e => !(e.1 == w.1)) base).filter
          (fun e => !decide (e.1 ∈ ws.map Prod.fst))
        = base.filter (fun e => !decide (e.1 ∈ (w :: ws).map Prod.fst)) := by
      rw [List.filter_filter]
      apply List.filter_congr
      intro a _
      by_cases h1 : a.1 = w.1 <;> by_cases h2 : a.1 ∈ ws.map Prod.fst <;>
        simp [h1, h2]
    rw [hD]
    simp [hn.1]

/-- What generate_files leaves on disk, in closed form: outside the
destination the initial state survives the rmtree and every write;
under the destination exactly the four artifacts remain. -/
theorem generate_files_eq (n : String) (port node_port : Nat)
    (envs : List EnvVar) (out : FsPath) (fs0 : Fs) :
    generate_files n port node_port envs out fs0
      = (fs0.filter (fun e => !(out.isPrefixOf e.1))).filter
          (fun e =>
            !decide (e.1 ∈ (bundle_writes n port node_port envs out).map Prod.fst))
        ++ bundle_writes n port node_port envs out := by
  have h : generate_files n port node_port envs out fs0
      = runOps ((bundle_writes n port node_port envs out).map
            (fun w => FsOp.write w.1 w.2))
          (fs0.filter (fun e => !(out.isPrefixOf e.1))) := rfl
  rw [h, runOps_writes _ _ (bundle_writes_paths_nodup n port node_port envs out)]

/-- The filesystem state after the first m + 2 operations of
generate_files: the rmtree, the mkdirs, and the first m writes. -/
theorem generate_files_take_eq (n : String) (port node_port : Nat)
    (envs : List EnvVar) (out : FsPath) (fs0 : Fs) (m : Nat) :
    runOps ((generate_files_ops n port node_port envs out).take (m + 2)) fs0
      = (fs0.filter (fun e => !(out.isPrefixOf e.1))).filter
          (fun e =>
            !decide (e.1 ∈
              ((bundle_writes n port node_port envs out).take m).map Prod.fst))
        ++ (bundle_writes n port node_port envs out).take m := by
  have hn : (((bundle_writes n port node_port envs out).take m).map
      Prod.fst).Nodup := by
    rw [List.map_take]
    exact List.Nodup.sublist (List.take_sublist m _)
      (bundle_writes_paths_nodup n port node_port envs out)
  have htake : (generate_files_ops n port node_port envs out).take (m + 2)
      = FsOp.rmtreeIfExists out
          :: FsOp.mkdirs (out ++ ["k8s"])
          :: ((bundle_writes n port node_port envs out).take m).map
              (fun w => FsOp.write w.1 w.2) := by
    simp [generate_files_ops, List.take_succ_cons, List.map_take]
  rw [htake]
  have hstep : runOps (FsOp.rmtreeIfExists out
        :: FsOp.mkdirs (out ++ ["k8s"])
        :: ((bundle_writes n port node_port envs out).take m).map
            (fun w => FsOp.write w.1 w.2)) fs0
      = runOps (((bundle_writes n port node_port envs out).take m).map
            (fun w => FsOp.write w.1 w.2))
          (fs0.filter (fun e => !(out.isPrefixOf e.1))) := rfl
  rw [hstep, runOps_writes _ _ hn]

/-- Reading the writes back out of a list of write operations gives the
original file list. -/
theorem writesOf_map_write (l : List (FsPath × String)) :
    writesOf (l.map (fun w => FsOp.write w.1 w.2)) = l := by
  induction l with
  | nil => rfl
  | cons w l ih =>
    simp only [List.map_cons, writesOf, List.filterMap_cons] at ih ⊢
    rw [ih]

/-- The writes among the first m + 2 operations of generate_files are the
first m artifacts. -/
theorem writesOf_take (n : String) (port node_port : Nat)
    (envs : List EnvVar) (out : FsPath) (m : Nat) :
    writesOf ((generate_files_ops n port node_port envs out).take (m + 2))
      = (bundle_writes n port node_port envs out).take m := by
  have htake : (generate_files_ops n port node_port envs out).take (m + 2)
      = FsOp.rmtreeIfExists out
          :: FsOp.mkdirs (out ++ ["k8s"])
          :: ((bundle_writes n port node_port envs out).take m).map
              (fun w => FsOp.write w.1 w.2) := by
    simp [generate_files_ops, List.take_succ_cons, List.map_take]
  rw [htake]
  have hskip : writesOf (FsOp.rmtreeIfExists out
        :: FsOp.mkdirs (out ++ ["k8s"])
        :: ((bundle_writes n port node_port envs out).take m).map
            (fun w => FsOp.write w.1 w.2))
      = writesOf (((bundle_writes n port node_port envs out).take m).map
          (fun w => FsOp.write w.1 w.2)) := rfl
  rw [hskip, writesOf_map_write]

/-- A list whose entries all lie under out is unchanged by the
under-out filter. -/
theorem filter_under_of_under (l : Fs) (out : FsPath)
    (h : ∀ w ∈ l, out.isPrefixOf w.1 = true) :
    l.filter (fun e => out.isPrefixOf e.1) = l :=
  List.filter_eq_self.mpr h

/-- A list whose entries all lie under out is emptied by the
not-under-out filter. -/
theorem filter_not_under_of_under (l : Fs) (out : FsPath)
    (h : ∀ w ∈ l, out.isPrefixOf w.1 = true) :
    l.filter (fun e => !(out.isPrefixOf e.1)) = [] := by
  rw [List.filter_eq_nil_iff]
  intro a ha
  simp [h a ha]

/-- After removing everything under out, a further filter keeps nothing
under out. -/
theorem clean_filter_under (fs0 : Fs) (out : FsPath)
    (q : FsPath × String → Bool) :
    ((fs0.filter (fun e => !(out.isPrefixOf e.1))).filter q).filter
        (fun e => out.isPrefixOf e.1) = [] := by
  rw [List.filter_filter, List.filter_filter, List.filter_eq_nil_iff]
  intro a _
  cases h : out.isPrefixOf a.1 <;> simp [h]

/-- Removing entries whose paths are under out and then entries whose
paths are in a list of under-out paths keeps exactly the not-under
entries. -/
theorem clean_filter_frame (fs0 : Fs) (out : FsPath) (paths : List FsPath)
    (hp : ∀ p ∈ paths, out.isPrefixOf p = true) :
    ((fs0.filter (fun e => !(out.isPrefixOf e.1))).filter
        (fun e => !decide (e.1 ∈ paths))).filter
      (fun e => !(out.isPrefixOf e.1))
    = fs0.filter (fun e => !(out.isPrefixOf e.1)) := by
  rw [List.filter_filter, List.filter_filter]
  apply List.filter_congr
  intro a _
  cases h : out.isPrefixOf a.1 <;> simp [h]
  intro hmem
  have := hp a.1 hmem
  rw [this] at h
  cases h

/-- Removing entries under out makes a later filter against a list of
under-out paths a no-op. -/
theorem clean_filter_not_mem (fs0 : Fs) (out : FsPath) (paths : List FsPath)
    (hp : ∀ p ∈ paths, out.isPrefixOf p = true) :
    (fs0.filter (fun e => !(out.isPrefixOf e.1))).filter
        (fun e => !decide (e.1 ∈ paths))
      = fs0.filter (fun e => !(out.isPrefixOf e.1)) := by
  rw [List.filter_filter]
  apply List.filter_congr
  intro a _
  cases h : out.isPrefixOf a.1 <;> simp [h]
  intro hmem
  have := hp a.1 hmem
  rw [this] at h
  cases h

/-! ## Claims -/

/-- C5: for every application name, the name and the derived secret,
service and autoscaler names are identical at every emission site that
references them: the workload manifest metadata name, labels, selector,
template label and container name, the service selector, the autoscaler
scale target and the Jenkinsfile deployment references all carry the raw
name; the workload secret reference, the secret manifest name and the
Jenkinsfile secret name all equal name-secret; the service manifest name
and the Jenkinsfile service name equal name-service; the autoscaler
manifest name and the Jenkinsfile autoscaler name equal name-hpa. -/
theorem derived_names_consistent (n : String) :
    deployment_metadata_name n = n ∧
    deployment_label_app n = n ∧
    deployment_selector_app n = n ∧
    deployment_template_label_app n = n ∧
    deployment_container_name n = n ∧
    service_selector_app n = n ∧
    hpa_scale_target_name n = n ∧
    jenkins_deployment_name n = n ∧
    jenkins_rollout_target n = n ∧
    jenkins_pods_label n = n ∧
    deployment_secret_ref n = secret_metadata_name n ∧
    secret_metadata_name n = jenkins_secret_name n ∧
    secret_metadata_name n = n ++ "-secret" ∧
    service_metadata_name n = jenkins_service_name n ∧
    service_metadata_name n = n ++ "-service" ∧
    hpa_metadata_name n = jenkins_hpa_name n ∧
    hpa_metadata_name n = n ++ "-hpa" :=
  ⟨rfl, rfl, rfl, rfl, rfl, rfl, rfl, rfl, rfl, rfl, rfl, rfl, rfl, rfl,
   rfl, rfl, rfl⟩

/-- C6: for every envs list, the ARG declarations of the Dockerfile and
the variables the Jenkinsfile passes as build arguments are the same
list, and as a set both equal the credential-binding names united with
PORT, which is exactly the set of environment-variable names united
with PORT. -/
theorem build_args_match_credential_bindings (envs : List EnvVar) :
    dockerfile_build_args envs = jenkins_build_arg_names envs ∧
    (dockerfile_build_args envs).toFinset
      = (jenkins_credential_bindings envs).toFinset ∪ {"PORT"} ∧
    (dockerfile_build_args envs).toFinset
      = (envs.map (fun e => e.name)).toFinset ∪ {"PORT"} := by
  refine ⟨rfl, ?_, ?_⟩ <;>
    simp [dockerfile_build_args, jenkins_credential_bindings]

/-- C10: for every application name and port, both probes of the workload
manifest use the HTTP path obtained by prefixing the name with a slash —
so the path varies injectively with the descriptor name — while the
probe timings are constants that do not depend on the descriptor. -/
theorem probe_paths_vary_timings_fixed (n : String) (p : Nat)
    (n2 : String) (p2 : Nat) :
    liveness_probe_path n = "/" ++ n ∧
    readiness_probe_path n = "/" ++ n ∧
    liveness_probe_timings n p = liveness_probe_timings n2 p2 ∧
    readiness_probe_timings n p = readiness_probe_timings n2 p2 ∧
    liveness_probe_timings n p = ⟨30, 10, 5, 3⟩ ∧
    readiness_probe_timings n p = ⟨5, 5, 3, 3⟩ ∧
    (liveness_probe_path n = liveness_probe_path n2 → n = n2) := by
  refine ⟨rfl, rfl, rfl, rfl, rfl, rfl, ?_⟩
  intro h
  have hd := congrArg String.data h
  simp only [liveness_probe_path, String.data_append] at hd
  exact String.ext (List.append_cancel_left hd)

/-- C10 witness: the implication of the probe theorem discharged at a
concrete name. -/
theorem probe_paths_vary_timings_fixed_witness : ("orders-api" : String) = "orders-api" :=
  (probe_paths_vary_timings_fixed "orders-api" 8080 "orders-api" 8080).2.2.2.2.2.2 rfl

/-- C7: for every descriptor with an empty environmentVariables list,
generation succeeds (the route answers success), the build file declares
PORT as its only build argument, and the secret template renderer emits
zero stringData entries. -/
theorem empty_envs_generation_ok (d : Descriptor) (h : d.envs = []) :
    dockerfile_build_args d.envs = ["PORT"] ∧
    secret_string_data_entries (d.envs.map (fun e => e.name)) = [] ∧
    String.join (secret_string_data_entries (d.envs.map (fun e => e.name))) = "" ∧
    (generate_route d []).2.1 = true := by
  rw [h]
  exact ⟨rfl, rfl, rfl, rfl⟩

/-- C7 witness: the empty-envs theorem discharged at a concrete
descriptor. -/
theorem empty_envs_generation_ok_witness :
    dockerfile_build_args [] = ["PORT"] ∧
    secret_string_data_entries [] = [] ∧
    String.join (secret_string_data_entries []) = "" ∧
    (generate_route ⟨"demo", 8080, 30080, []⟩ []).2.1 = true :=
  empty_envs_generation_ok ⟨"demo", 8080, 30080, []⟩ rfl

/-- C8: write_secret_yaml is unreachable from the public interface — the
call-graph closure of the two Flask routes (a fixpoint of the closure
step) does not contain it — and every direct call to it writes the
secret manifest to the given output path and then raises NameError for
the unbound name output_dir, so it never gets to the Jenkinsfile. -/
theorem write_secret_yaml_unreachable_and_raises :
    (PyFun.write_secret_yaml ∉ reachable_functions ∧
      reach_step reachable_functions = reachable_functions) ∧
    ∀ (n : String) (vars : List String) (p : FsPath) (fs : Fs),
      (write_secret_yaml n vars p fs).2
          = Except.error (PyError.nameError "output_dir") ∧
      (p, secret_yaml_text n vars) ∈ (write_secret_yaml n vars p fs).1 := by
  refine ⟨by decide, ?_⟩
  intro n vars p fs
  refine ⟨rfl, ?_⟩
  simp [write_secret_yaml, applyOp]

/-- C1 (evaluation of the code at a failing input): one request for the
sample descriptor writes exactly four artifacts — the container build
file and the three manifests — and neither a pipeline definition
(Jenkinsfile) nor any further file is in the bundle; the secret manifest
and pipeline emission code sits in write_secret_yaml, which no code path
runs. -/
theorem generate_writes_only_four_artifacts :
    ((generate_route ⟨"orders-api", 8080, 30080,
        [⟨"DB_URL", "db-url-secret"⟩, ⟨"API_KEY", "api-key-secret"⟩]⟩ []).1).map
        Prod.fst
      = [["generated", "orders-api", "Dockerfile"],
         ["generated", "orders-api", "k8s", "orders-api.yaml"],
         ["generated", "orders-api", "k8s", "orders-api-service.yaml"],
         ["generated", "orders-api", "k8s", "orders-api-hpa.yaml"]] ∧
    ["generated", "orders-api", "Jenkinsfile"]
        ∉ ((generate_route ⟨"orders-api", 8080, 30080,
            [⟨"DB_URL", "db-url-secret"⟩, ⟨"API_KEY", "api-key-secret"⟩]⟩ []).1).map
            Prod.fst := by
  decide

/-- C2 counterexample: the name My_App has an uppercase letter and an
underscore and the two environment entries share the name API_KEY, so
the descriptor is malformed in both ways the claim lists; yet the
/generate route reports success and the four artifacts are written with
the malformed name embedded — generation does not fail and artifacts are
written, contradicting the claim. -/
theorem generate_route_accepts_malformed :
    malformed_descriptor ⟨"My_App", 8080, 30080,
        [⟨"API_KEY", "s1"⟩, ⟨"API_KEY", "s2"⟩]⟩ ∧
    (generate_route ⟨"My_App", 8080, 30080,
        [⟨"API_KEY", "s1"⟩, ⟨"API_KEY", "s2"⟩]⟩ []).2.1 = true ∧
    ((generate_route ⟨"My_App", 8080, 30080,
        [⟨"API_KEY", "s1"⟩, ⟨"API_KEY", "s2"⟩]⟩ []).1).map Prod.fst
      = [["generated", "My_App", "Dockerfile"],
         ["generated", "My_App", "k8s", "My_App.yaml"],
         ["generated", "My_App", "k8s", "My_App-service.yaml"],
         ["generated", "My_App", "k8s", "My_App-hpa.yaml"]] := by
  refine ⟨by decide, rfl, by decide⟩

/-- C2 amended: src/app.py validates nothing — there is no
ValidationError anywhere — so even for a malformed descriptor the route
runs every renderer, reports success with its generation message, and
writes the complete four-artifact bundle with the malformed name
embedded in the artifact paths. -/
theorem generate_route_no_validation (d : Descriptor) (fs : Fs)
    (_h : malformed_descriptor d) :
    (generate_route d fs).2.1 = true ∧
    (generate_route d fs).2.2
        = "Fichiers générés dans generated/" ++ d.app_name ∧
    ((generate_route d []).1).map Prod.fst
      = [["generated", d.app_name, "Dockerfile"],
         ["generated", d.app_name, "k8s", d.app_name ++ ".yaml"],
         ["generated", d.app_name, "k8s", d.app_name ++ "-service.yaml"],
         ["generated", d.app_name, "k8s", d.app_name ++ "-hpa.yaml"]] := by
  refine ⟨rfl, rfl, ?_⟩
  have hr : (generate_route d []).1
      = generate_files d.app_name d.port d.node_port d.envs
          ["generated", d.app_name] [] := rfl
  rw [hr, generate_files_eq]
  simp [bundle_writes]

/-- C2 witness: the amended theorem discharged at the malformed
descriptor of the counterexample. -/
theorem generate_route_no_validation_witness :
    malformed_descriptor ⟨"My_App", 8080, 30080,
        [⟨"API_KEY", "s1"⟩, ⟨"API_KEY", "s2"⟩]⟩ ∧
    ((generate_route ⟨"My_App", 8080, 30080,
        [⟨"API_KEY", "s1"⟩, ⟨"API_KEY", "s2"⟩]⟩ []).2.1 = true ∧
     (generate_route ⟨"My_App", 8080, 30080,
        [⟨"API_KEY", "s1"⟩, ⟨"API_KEY", "s2"⟩]⟩ []).2.2
        = "Fichiers générés dans generated/" ++ "My_App" ∧
     ((generate_route ⟨"My_App", 8080, 30080,
        [⟨"API_KEY", "s1"⟩, ⟨"API_KEY", "s2"⟩]⟩ []).1).map Prod.fst
      = [["generated", "My_App", "Dockerfile"],
         ["generated", "My_App", "k8s", "My_App.yaml"],
         ["generated", "My_App", "k8s", "My_App-service.yaml"],
         ["generated", "My_App", "k8s", "My_App-hpa.yaml"]]) :=
  ⟨by decide,
   generate_route_no_validation ⟨"My_App", 8080, 30080,
     [⟨"API_KEY", "s1"⟩, ⟨"API_KEY", "s2"⟩]⟩ [] (by decide)⟩

/-- C4 (evaluation of the code at a failing input): with the name
orders-api, the deploy stage of the rendered pipeline reads
k8s/orders-api-deployment.yaml, which is neither among the relative
paths generate_files writes nor in the bundle a request produces: the
generator stores the deployment manifest at k8s/orders-api.yaml, so the
pipeline references a path the assembler never writes. -/
theorem jenkins_reads_unwritten_deployment_path :
    ["k8s", "orders-api-deployment.yaml"]
        ∈ jenkins_deploy_manifest_paths "orders-api" ∧
    ["k8s", "orders-api-deployment.yaml"]
        ∉ bundle_relative_paths "orders-api" ∧
    ["generated", "orders-api", "k8s", "orders-api-deployment.yaml"]
        ∉ ((generate_route ⟨"orders-api", 8080, 30080, []⟩ []).1).map
            Prod.fst := by
  decide

set_option maxRecDepth 8000 in
/-- C3 counterexample: starting from a filesystem holding one old file
under the destination, the state after the first three operations of
generate_files — the point a failure of the next write would expose — is
neither the initial filesystem nor the fully generated one: generation
is not all-or-nothing. -/
theorem generate_files_not_atomic :
    ¬ (runOps ((generate_files_ops "demo" 8080 30080 []
            ["generated", "demo"]).take 3)
          [(["generated", "demo", "old.yaml"], "old")]
        = [(["generated", "demo", "old.yaml"], "old")] ∨
      runOps ((generate_files_ops "demo" 8080 30080 []
            ["generated", "demo"]).take 3)
          [(["generated", "demo", "old.yaml"], "old")]
        = runOps (generate_files_ops "demo" 8080 30080 []
            ["generated", "demo"])
          [(["generated", "demo", "old.yaml"], "old")]) := by
  decide

/-- C3 amended: generation is not atomic and does not write to a scratch
location: generate_files first deletes the whole destination tree, then
writes artifacts one at a time directly to the destination, so after
the rmtree, the mkdirs and the Dockerfile write the disk holds exactly
the files outside the destination plus the new Dockerfile; if a later
write fails, this partial bundle stays at the persistent destination
(the route then returns the failure message, lines 263-264). -/
theorem generate_files_partial_state (n : String) (port node_port : Nat)
    (envs : List EnvVar) (out : FsPath) (fs0 : Fs) :
    runOps ((generate_files_ops n port node_port envs out).take 3) fs0
      = fs0.filter (fun e => !(out.isPrefixOf e.1))
        ++ [(out ++ ["Dockerfile"], dockerfile_text envs)] := by
  show runOps ((generate_files_ops n port node_port envs out).take (1 + 2)) fs0 = _
  rw [generate_files_take_eq]
  have hp : ∀ p ∈ ((bundle_writes n port node_port envs out).take 1).map
      Prod.fst, out.isPrefixOf p = true := by
    intro p hp
    rcases List.mem_map.mp hp with ⟨w, hw, rfl⟩
    exact bundle_writes_under n port node_port envs out w
      (List.take_subset 1 _ hw)
  rw [clean_filter_not_mem _ _ _ hp]
  simp [bundle_writes]

/-- C9: the very first operation of generate_files deletes the whole
existing destination tree, before any artifact is rendered; after any
number k of completed operations with 1 at most k, the files outside
the destination are exactly the initial ones and the files under the
destination are exactly the artifacts written by the first k operations:
the previous bundle is destroyed as soon as generation starts, and
whatever was written up to a failure point remains at the destination. -/
theorem generate_files_clears_then_accumulates (n : String)
    (port node_port : Nat) (envs : List EnvVar) (out : FsPath) (fs0 : Fs)
    (k : Nat) (hk : 1 ≤ k) :
    (generate_files_ops n port node_port envs out).head?
        = some (FsOp.rmtreeIfExists out) ∧
    (runOps ((generate_files_ops n port node_port envs out).take k)
        fs0).filter (fun e => !(out.isPrefixOf e.1))
      = fs0.filter (fun e => !(out.isPrefixOf e.1)) ∧
    (runOps ((generate_files_ops n port node_port envs out).take k)
        fs0).filter (fun e => out.isPrefixOf e.1)
      = writesOf ((generate_files_ops n port node_port envs out).take k) := by
  refine ⟨rfl, ?_⟩
  cases k with
  | zero => omega
  | succ j =>
    cases j with
    | zero =>
      constructor
      · show (fs0.filter (fun e => !(out.isPrefixOf e.1))).filter
            (fun e => !(out.isPrefixOf e.1)) = _
        rw [List.filter_filter]
        apply List.filter_congr
        intro a _
        cases h : out.isPrefixOf a.1 <;> simp [h]
      · show (fs0.filter (fun e => !(out.isPrefixOf e.1))).filter
            (fun e => out.isPrefixOf e.1) = []
        rw [List.filter_filter, List.filter_eq_nil_iff]
        intro a _
        cases h : out.isPrefixOf a.1 <;> simp [h]
    | succ m =>
      rw [show m + 1 + 1 = m + 2 from rfl, generate_files_take_eq,
        writesOf_take]
      have hunder : ∀ w ∈ (bundle_writes n port node_port envs out).take m,
          out.isPrefixOf w.1 = true := fun w hw =>
        bundle_writes_under n port node_port envs out w
          (List.take_subset m _ hw)
      have hpaths : ∀ p ∈ ((bundle_writes n port node_port envs out).take
          m).map Prod.fst, out.isPrefixOf p = true := by
        intro p hp
        rcases List.mem_map.mp hp with ⟨w, hw, rfl⟩
        exact hunder w hw
      constructor
      · rw [List.filter_append,
          clean_filter_frame fs0 out _ hpaths,
          filter_not_under_of_under _ out hunder,
          List.append_nil]
      · rw [List.filter_append,
          clean_filter_under,
          filter_under_of_under _ out hunder,
          List.nil_append]

/-- C9 witness: the theorem discharged at a concrete state, with three
operations completed. -/
theorem generate_files_clears_then_accumulates_witness :
    1 ≤ 3 ∧
    ((generate_files_ops "demo" 8080 30080 [] ["generated", "demo"]).head?
        = some (FsOp.rmtreeIfExists ["generated", "demo"]) ∧
     (runOps ((generate_files_ops "demo" 8080 30080 []
          ["generated", "demo"]).take 3)
        [(["keep.txt"], "x"), (["generated", "demo", "old.yaml"], "y")]).filter
        (fun e => !(["generated", "demo"].isPrefixOf e.1))
      = [(["keep.txt"], "x"),
         (["generated", "demo", "old.yaml"], "y")].filter
          (fun e => !(["generated", "demo"].isPrefixOf e.1)) ∧
     (runOps ((generate_files_ops "demo" 8080 30080 []
          ["generated", "demo"]).take 3)
        [(["keep.txt"], "x"), (["generated", "demo", "old.yaml"], "y")]).filter
        (fun e => ["generated", "demo"].isPrefixOf e.1)
      = writesOf ((generate_files_ops "demo" 8080 30080 []
          ["generated", "demo"]).take 3)) :=
  ⟨by decide,
   generate_files_clears_then_accumulates "demo" 8080 30080 []
     ["generated", "demo"]
     [(["keep.txt"], "x"), (["generated", "demo", "old.yaml"], "y")]
     3 (by decide)⟩
